import Mathlib

/-!
Verification development for the attestation-verification workflow documented in
this repository (Solana Attestation Service docs site).  The two TypeScript
functions under scrutiny are `verifyAttestation`
(docs/pages/guides/ts/how-to-create-digital-credentials.mdx) and
`verifyTokenAttestation` (docs/pages/guides/ts/tokenized-attestations.mdx).
Both are sequential async scripts over an external ledger: every RPC call and
every fallible SDK call is modelled as a component of an `Env` record, machine
integers (`bigint` timestamps) as `Int`, thrown exceptions as `Except`, and the
surrounding `try/catch` as explicit propagation of the `Except` branches into
the boolean result.
-/

/-- Base-58 account addresses; plain strings in the TypeScript sources. -/
abbrev Address := String

/-- Failure conditions of the RPC / SDK layer: an address holding no account,
a transport-level RPC failure, and a payload that does not parse.  In the
TypeScript sources all of these surface as thrown exceptions and are caught by
the `try/catch` wrappers of the verification functions. -/
inductive FetchError where
  | notFound
  | rpcFailure (message : String)
  | decodeFailure (message : String)
  deriving DecidableEq, Repr

/-- The Schema account (spec section 3; `schema.data` in the guides): a
versioned template owned by a credential, with an ordered field layout, field
names, and a pause flag. -/
structure Schema where
  discriminator : Nat
  credential : Address
  name : List Nat
  description : String
  layout : List Nat
  fieldNames : List String
  isPaused : Bool
  version : Nat
  deriving DecidableEq, Repr

/-- The Attestation account, following the `Attestation` type definition in the
repository's API reference (`export type Attestation = { discriminator; nonce;
credential; schema; data; signer; expiry; tokenAccount }`); `expiry : bigint`
becomes `Int`, raw payload bytes become `List Nat`. -/
structure Attestation where
  discriminator : Nat
  nonce : Address
  credential : Address
  schema : Address
  data : List Nat
  signer : Address
  expiry : Int
  tokenAccount : Address
  deriving DecidableEq, Repr

/-- A decoded attestation payload field value (e.g. `name: 'test-user'`,
`age: 100` in the guide's demo output). -/
inductive FieldValue where
  | str (value : String)
  | int (value : Int)
  | boolean (value : Bool)
  deriving DecidableEq, Repr

/-- The decoded attestation payload: field name / value pairs. -/
abbrev AttestationData := List (String × FieldValue)

/-- Token-2022 mint extensions inspected by `verifyTokenAttestation`: the
`TokenGroupMember` extension (carrying the group address), the `TokenMetadata`
extension (carrying name, symbol, uri and the `additionalMetadata` key/value
map), and any other extension kind (ignored by the verification code). -/
inductive MintExtension where
  | tokenGroupMember (group : Address)
  | tokenMetadata (name : String) (symbol : String) (uri : String)
      (additionalMetadata : List (String × String))
  | other (kind : String)
  deriving DecidableEq, Repr

/-- The predicate of `foundExtensions.find(ext => ext.__kind === 'TokenGroupMember')`. -/
def MintExtension.isTokenGroupMember : MintExtension → Bool
  | .tokenGroupMember _ => true
  | _ => false

/-- The predicate of `foundExtensions.find(ext => ext.__kind === 'TokenMetadata')`. -/
def MintExtension.isTokenMetadata : MintExtension → Bool
  | .tokenMetadata _ _ _ _ => true
  | _ => false

/-- A Token-2022 mint account as consumed by `verifyTokenAttestation`: only the
`extensions` field is read; its `__option === 'None'` case is `none`. -/
structure Mint where
  extensions : Option (List MintExtension)
  deriving DecidableEq, Repr

/-- The external world of one verification run: the ledger read interface
(`fetchSchema`, `fetchAttestation`, `fetchMint` over `client.rpc`), the sas-lib
payload decoder `deserializeAttestationData` (the sas-lib package is an
external dependency, so the decoder is kept abstract; only its
success-or-throw behaviour matters to the verification code), and the clock
`now` (`BigInt(Math.floor(Date.now() / 1000))`).  A `.error` value models a
thrown exception; `fetchMint` additionally returns `none` for a falsy mint
account, matching the `if (!mintAccount) return false` guard in the source. -/
structure Env where
  fetchSchema : Address → Except FetchError Schema
  fetchAttestation : Address → Except FetchError Attestation
  fetchMint : Address → Except FetchError (Option Mint)
  deserializeAttestationData : Schema → List Nat → Except FetchError AttestationData
  now : Int

/-- Render a byte list as a seed component. -/
def encodeBytes (bytes : List Nat) : String :=
  String.intercalate "," (bytes.map toString)

/-- Modelled from the spec: the PDA hash itself lives inside the external
sas-lib package (not under src/); the spec requires only that derivation be a
deterministic pure function of its seeds, so the address is modelled as an
injective encoding of the seed list. -/
def pdaAddress (seeds : List String) : Address :=
  "pda<" ++ String.intercalate "|" seeds ++ ">"

/-- Modelled from the spec: `deriveCredentialPda` is implemented in the
external sas-lib package; the repository documents its contract — a
deterministic PDA computed from the authority and the credential name, where
"only the first 32 bytes [of the name] are used due to seed size limits", and
a bump seed is returned alongside the address. -/
def deriveCredentialPda (authority : Address) (name : List Nat) : Address × Nat :=
  (pdaAddress ["credential", authority, encodeBytes (name.take 32)], 255)

/-- Modelled from the spec: `deriveAttestationPda` (sas-lib, not under src/)
deterministically derives the attestation account address from the credential,
the schema and the subject nonce. -/
def deriveAttestationPda (credential schema nonce : Address) : Address × Nat :=
  (pdaAddress ["attestation", credential, schema, nonce], 255)

/-- Modelled from the spec: `deriveSchemaMintPda` (sas-lib, not under src/)
deterministically derives the schema token-group mint address from the schema. -/
def deriveSchemaMintPda (schema : Address) : Address × Nat :=
  (pdaAddress ["schemaMint", schema], 255)

/-- Modelled from the spec: `deriveAttestationMintPda` (sas-lib, not under
src/) deterministically derives the attestation token mint address from the
attestation. -/
def deriveAttestationMintPda (attestation : Address) : Address × Nat :=
  (pdaAddress ["attestationMint", attestation], 255)

/-- An RPC round trip issued during `verifyAttestation`, recorded in program
order so that theorems can speak about which fetches happened. -/
inductive RpcCall where
  | schemaFetch (address : Address)
  | attestationFetch (address : Address)
  deriving DecidableEq, Repr

/-- `verifyAttestation` from
docs/pages/guides/ts/how-to-create-digital-credentials.mdx, instrumented with
the ordered list of RPC calls it issues.  Source control flow:

  try {
    const schema = await fetchSchema(client.rpc, schemaPda);
    if (schema.data.isPaused) { return false; }
    const [attestationPda] = await deriveAttestationPda({
      credential: schema.data.credential, schema: schemaPda, nonce: userAddress });
    const attestation = await fetchAttestation(client.rpc, attestationPda);
    const attestationData = deserializeAttestationData(schema.data, attestation.data.data);
    const currentTimestamp = BigInt(Math.floor(Date.now() / 1000));
    return currentTimestamp < attestation.data.expiry;
  } catch (error) { return false; }
-/
def verifyAttestationRun (env : Env) (schemaPda userAddress : Address) :
    Bool × List RpcCall :=
  match env.fetchSchema schemaPda with
  | .error _ => (false, [.schemaFetch schemaPda])
  | .ok schema =>
    if schema.isPaused then (false, [.schemaFetch schemaPda])
    else
      let attestationPda := (deriveAttestationPda schema.credential schemaPda userAddress).1
      match env.fetchAttestation attestationPda with
      | .error _ => (false, [.schemaFetch schemaPda, .attestationFetch attestationPda])
      | .ok attestation =>
        match env.deserializeAttestationData schema attestation.data with
        | .error _ => (false, [.schemaFetch schemaPda, .attestationFetch attestationPda])
        | .ok _attestationData =>
          (decide (env.now < attestation.expiry),
           [.schemaFetch schemaPda, .attestationFetch attestationPda])

/-- The boolean result of `verifyAttestation` (first component of the
instrumented run). -/
def verifyAttestation (env : Env) (schemaPda userAddress : Address) : Bool :=
  (verifyAttestationRun env schemaPda userAddress).1

/-- `verifyTokenAttestation` from docs/pages/guides/ts/tokenized-attestations.mdx.
Source control flow:

  try {
    const schema = await fetchSchema(client.rpc, schemaPda);
    const [attestationPda] = await deriveAttestationPda({
      credential: schema.data.credential, schema: schemaPda, nonce: userAddress });
    const [attestationMint] = await deriveAttestationMintPda({ attestation: attestationPda });
    const mintAccount = await fetchMint(client.rpc, attestationMint);
    if (!mintAccount) return false;
    if (mintAccount.data.extensions.__option === 'None') { return false; }
    const { value: foundExtensions } = mintAccount.data.extensions;
    const [schemaMint] = await deriveSchemaMintPda({ schema: schemaPda });
    const tokenGroupMember = foundExtensions.find(ext => ext.__kind === 'TokenGroupMember');
    if (!tokenGroupMember) return false;
    if (tokenGroupMember.group !== schemaMint) return false;
    const tokenMetadata = foundExtensions.find(ext => ext.__kind === 'TokenMetadata');
    if (!tokenMetadata) return false;
    const attestationInMetadata = tokenMetadata.additionalMetadata.get('attestation');
    if (attestationInMetadata !== attestationPda) return false;
    const schemaInMetadata = tokenMetadata.additionalMetadata.get('schema');
    if (schemaInMetadata !== schemaPda) return false;
    return true;
  } catch { return false; }

The two catch-all `some _ => false` arms are unreachable because `List.find?`
only returns elements satisfying its predicate; they are required for
exhaustiveness.  Note the source performs no `isPaused` check on this path. -/
def verifyTokenAttestation (env : Env) (schemaPda userAddress : Address) : Bool :=
  match env.fetchSchema schemaPda with
  | .error _ => false
  | .ok schema =>
    let attestationPda := (deriveAttestationPda schema.credential schemaPda userAddress).1
    let attestationMint := (deriveAttestationMintPda attestationPda).1
    match env.fetchMint attestationMint with
    | .error _ => false
    | .ok none => false
    | .ok (some mintAccount) =>
      match mintAccount.extensions with
      | none => false
      | some foundExtensions =>
        let schemaMint := (deriveSchemaMintPda schemaPda).1
        match foundExtensions.find? MintExtension.isTokenGroupMember with
        | none => false
        | some (.tokenGroupMember group) =>
          if group ≠ schemaMint then false
          else
            match foundExtensions.find? MintExtension.isTokenMetadata with
            | none => false
            | some (.tokenMetadata _ _ _ additionalMetadata) =>
              if additionalMetadata.lookup "attestation" ≠ some attestationPda then false
              else if additionalMetadata.lookup "schema" ≠ some schemaPda then false
              else true
            | some _ => false
        | some _ => false

/-! ### Concrete environments used by witnesses and counterexamples -/

/-- Demo credential address (stands for the credential PDA of the guides). -/
def demoCredential : Address := "CRED"

/-- Demo schema account address. -/
def demoSchemaAddress : Address := "SCHEMA"

/-- Demo subject (test user) address. -/
def demoUser : Address := "USER"

/-- The demo schema of the guides (`THE-BASICS`, layout [String, U8, String],
fields name/age/country), unpaused. -/
def demoSchema : Schema :=
  { discriminator := 1
    credential := demoCredential
    name := [84, 72, 69]
    description := "Basic user information schema for testing"
    layout := [12, 0, 12]
    fieldNames := ["name", "age", "country"]
    isPaused := false
    version := 1 }

/-- The demo schema with its pause flag set. -/
def demoSchemaPaused : Schema := { demoSchema with isPaused := true }

/-- The attestation PDA the verification functions derive for the demo inputs. -/
def demoAttestationPda : Address :=
  (deriveAttestationPda demoCredential demoSchemaAddress demoUser).1

/-- The schema token-group mint address for the demo schema. -/
def demoSchemaMint : Address := (deriveSchemaMintPda demoSchemaAddress).1

/-- A demo attestation for the test user, expiring at time 1000. -/
def demoAttestation : Attestation :=
  { discriminator := 2
    nonce := demoUser
    credential := demoCredential
    schema := demoSchemaAddress
    data := [9, 0, 0, 0]
    signer := "SIGNER1"
    expiry := 1000
    tokenAccount := "TOKEN" }

/-- The decoded demo payload (`{ name: 'test-user', age: 100, country: 'usa' }`). -/
def demoDecoded : AttestationData :=
  [("name", .str "test-user"), ("age", .int 100), ("country", .str "usa")]

/-- An environment in which every external call throws. -/
def envAllErr : Env :=
  { fetchSchema := fun _ => .error .notFound
    fetchAttestation := fun _ => .error .notFound
    fetchMint := fun _ => .error .notFound
    deserializeAttestationData := fun _ _ => .error (.decodeFailure "bad payload")
    now := 0 }

/-- A fully healthy environment: unpaused schema, existing attestation at the
derived PDA, decodable payload, current time 0 (before expiry 1000). -/
def envOk : Env :=
  { fetchSchema := fun a => if a = demoSchemaAddress then .ok demoSchema else .error .notFound
    fetchAttestation := fun a =>
      if a = demoAttestationPda then .ok demoAttestation else .error .notFound
    fetchMint := fun _ => .error .notFound
    deserializeAttestationData := fun _ _ => .ok demoDecoded
    now := 0 }

/-- The healthy environment observed after the attestation expired (time 1000
is not strictly earlier than expiry 1000). -/
def envExpired : Env := { envOk with now := 1000 }

/-- The healthy environment with the schema paused. -/
def envPaused : Env :=
  { envOk with
    fetchSchema := fun a =>
      if a = demoSchemaAddress then .ok demoSchemaPaused else .error .notFound }

/-- A mint whose extensions make the demo token attestation fully valid: the
token is a member of the demo schema's token group and its metadata
cross-references the demo attestation PDA and schema address. -/
def demoGoodMint : Mint :=
  { extensions := some
      [.tokenGroupMember demoSchemaMint,
       .tokenMetadata "Test Identity" "TESTID" "https://example.com/metadata.json"
         [("attestation", demoAttestationPda), ("schema", demoSchemaAddress)]] }

/-- The good mint with its group membership pointing at a different group. -/
def demoWrongGroupMint : Mint :=
  { extensions := some
      [.tokenGroupMember "OTHER-GROUP",
       .tokenMetadata "Test Identity" "TESTID" "https://example.com/metadata.json"
         [("attestation", demoAttestationPda), ("schema", demoSchemaAddress)]] }

/-- An environment with a paused schema but a fully valid attestation token. -/
def envPausedToken : Env :=
  { fetchSchema := fun a =>
      if a = demoSchemaAddress then .ok demoSchemaPaused else .error .notFound
    fetchAttestation := fun _ => .error .notFound
    fetchMint := fun _ => .ok (some demoGoodMint)
    deserializeAttestationData := fun _ _ => .error (.decodeFailure "bad payload")
    now := 0 }

/-- An environment whose attestation token references the wrong token group. -/
def envWrongGroupToken : Env :=
  { envPausedToken with
    fetchSchema := fun a => if a = demoSchemaAddress then .ok demoSchema else .error .notFound
    fetchMint := fun _ => .ok (some demoWrongGroupMint) }

/-! ### Claim theorems -/

/-- Claim C1: for every schema address and subject address, `verifyAttestation`
never raises an error to the caller — it is a total boolean-valued function —
and every failure kind (schema fetch failure, attestation fetch failure
including not-found, and payload decode failure) yields the single result
`false`, whatever the error value, so no error kind is distinguishable to the
caller. -/
theorem verifyAttestation_flattens_failures (env : Env) (schemaPda userAddress : Address) :
    (∀ e, env.fetchSchema schemaPda = .error e →
        verifyAttestation env schemaPda userAddress = false) ∧
    (∀ schema e, env.fetchSchema schemaPda = .ok schema →
        env.fetchAttestation
            (deriveAttestationPda schema.credential schemaPda userAddress).1 = .error e →
        verifyAttestation env schemaPda userAddress = false) ∧
    (∀ schema attestation e, env.fetchSchema schemaPda = .ok schema →
        env.fetchAttestation
            (deriveAttestationPda schema.credential schemaPda userAddress).1 = .ok attestation →
        env.deserializeAttestationData schema attestation.data = .error e →
        verifyAttestation env schemaPda userAddress = false) := by
  refine ⟨?_, ?_, ?_⟩
  · intro e hs
    simp [verifyAttestation, verifyAttestationRun, hs]
  · intro schema e hs ha
    by_cases hp : schema.isPaused
    · simp [verifyAttestation, verifyAttestationRun, hs, hp]
    · simp [verifyAttestation, verifyAttestationRun, hs, hp, ha]
  · intro schema attestation e hs ha hd
    by_cases hp : schema.isPaused
    · simp [verifyAttestation, verifyAttestationRun, hs, hp]
    · simp [verifyAttestation, verifyAttestationRun, hs, hp, ha, hd]

/-- Witness for C1: in the all-throwing environment the schema fetch fails and
verification resolves to `false`. -/
theorem verifyAttestation_flattens_failures_witness :
    verifyAttestation envAllErr demoSchemaAddress demoUser = false :=
  (verifyAttestation_flattens_failures envAllErr demoSchemaAddress demoUser).1
    FetchError.notFound rfl

/-- Claim C2: whenever the schema fetch succeeds, the schema is not paused, the
attestation at the derived PDA exists, its payload decodes under the schema,
and the current time is strictly earlier than the attestation's expiry,
`verifyAttestation` returns `true`. -/
theorem verifyAttestation_valid_returns_true (env : Env) (schemaPda userAddress : Address)
    (schema : Schema) (attestation : Attestation) (decoded : AttestationData)
    (hs : env.fetchSchema schemaPda = .ok schema)
    (hp : schema.isPaused = false)
    (ha : env.fetchAttestation
        (deriveAttestationPda schema.credential schemaPda userAddress).1 = .ok attestation)
    (hd : env.deserializeAttestationData schema attestation.data = .ok decoded)
    (ht : env.now < attestation.expiry) :
    verifyAttestation env schemaPda userAddress = true := by
  simp [verifyAttestation, verifyAttestationRun, hs, hp, ha, hd, ht]

/-- Witness for C2: in the healthy environment the demo user verifies. -/
theorem verifyAttestation_valid_returns_true_witness :
    verifyAttestation envOk demoSchemaAddress demoUser = true :=
  verifyAttestation_valid_returns_true envOk demoSchemaAddress demoUser
    demoSchema demoAttestation demoDecoded rfl rfl rfl rfl (by decide)

/-- Claim C3: when the attestation account exists at the derived PDA,
`verifyAttestation` returns `true` only if the current time is strictly
earlier than the attestation's expiry; when the expiry is at or before the
current time the result is `false`, even though the account exists (and
regardless of whether it decodes). -/
theorem verifyAttestation_expiry_strict (env : Env) (schemaPda userAddress : Address)
    (schema : Schema) (attestation : Attestation)
    (hs : env.fetchSchema schemaPda = .ok schema)
    (ha : env.fetchAttestation
        (deriveAttestationPda schema.credential schemaPda userAddress).1 = .ok attestation) :
    (verifyAttestation env schemaPda userAddress = true → env.now < attestation.expiry) ∧
    (attestation.expiry ≤ env.now → verifyAttestation env schemaPda userAddress = false) := by
  constructor
  · intro h
    by_cases hp : schema.isPaused
    · simp [verifyAttestation, verifyAttestationRun, hs, hp] at h
    · rcases hd : env.deserializeAttestationData schema attestation.data with e | decoded
      · simp [verifyAttestation, verifyAttestationRun, hs, hp, ha, hd] at h
      · simp [verifyAttestation, verifyAttestationRun, hs, hp, ha, hd] at h
        exact h
  · intro hexp
    by_cases hp : schema.isPaused
    · simp [verifyAttestation, verifyAttestationRun, hs, hp]
    · rcases hd : env.deserializeAttestationData schema attestation.data with e | decoded
      · simp [verifyAttestation, verifyAttestationRun, hs, hp, ha, hd]
      · simp [verifyAttestation, verifyAttestationRun, hs, hp, ha, hd]
        exact hexp

/-- Witness for C3: at time 1000 the demo attestation (expiry 1000) exists and
decodes, yet verification returns `false`. -/
theorem verifyAttestation_expiry_strict_witness :
    verifyAttestation envExpired demoSchemaAddress demoUser = false :=
  (verifyAttestation_expiry_strict envExpired demoSchemaAddress demoUser
    demoSchema demoAttestation rfl rfl).2 (by decide)

/-- Claim C4: for every schema whose pause flag is set, `verifyAttestation`
returns `false` regardless of any attestation state, and its RPC trace stops
at the schema fetch: no attestation account is derived or fetched (the run's
call list is exactly the single schema fetch). -/
theorem verifyAttestation_paused_short_circuits (env : Env) (schemaPda userAddress : Address)
    (schema : Schema)
    (hs : env.fetchSchema schemaPda = .ok schema)
    (hp : schema.isPaused = true) :
    verifyAttestation env schemaPda userAddress = false ∧
    verifyAttestationRun env schemaPda userAddress = (false, [RpcCall.schemaFetch schemaPda]) := by
  constructor
  · simp [verifyAttestation, verifyAttestationRun, hs, hp]
  · simp [verifyAttestationRun, hs, hp]

/-- Witness for C4: with the demo schema paused, verification is `false` and
the only RPC call is the schema fetch. -/
theorem verifyAttestation_paused_short_circuits_witness :
    verifyAttestation envPaused demoSchemaAddress demoUser = false ∧
    verifyAttestationRun envPaused demoSchemaAddress demoUser
      = (false, [RpcCall.schemaFetch demoSchemaAddress]) :=
  verifyAttestation_paused_short_circuits envPaused demoSchemaAddress demoUser
    demoSchemaPaused rfl rfl

/-- Counterexample to claim C5 as stated: `envPausedToken` serves a schema
whose pause flag is set, yet `verifyTokenAttestation` returns `true` for the
demo user because the token path never consults `isPaused`. -/
theorem pausedSchema_tokenVerification_counterexample :
    envPausedToken.fetchSchema demoSchemaAddress = .ok demoSchemaPaused ∧
    demoSchemaPaused.isPaused = true ∧
    verifyTokenAttestation envPausedToken demoSchemaAddress demoUser = true :=
  ⟨rfl, rfl, by decide⟩

/-- Claim C5 (amended): `verifyAttestation` treats every paused schema as
unverifiable and returns `false`, but `verifyTokenAttestation` never consults
the pause flag — its result is unchanged when the fetched schema's `isPaused`
flag is replaced by any boolean. -/
theorem paused_schema_unverifiable_amended (env : Env) (schemaPda userAddress : Address)
    (schema : Schema)
    (hs : env.fetchSchema schemaPda = .ok schema)
    (hp : schema.isPaused = true) :
    verifyAttestation env schemaPda userAddress = false ∧
    ∀ b : Bool,
      verifyTokenAttestation
        { env with fetchSchema := fun a =>
            if a = schemaPda then .ok { schema with isPaused := b } else env.fetchSchema a }
        schemaPda userAddress
        = verifyTokenAttestation env schemaPda userAddress := by
  constructor
  · simp [verifyAttestation, verifyAttestationRun, hs, hp]
  · intro b
    simp [verifyTokenAttestation, hs]

/-- Witness for the amended C5, at the paused-schema environment with a valid
token, instantiating the flag replacement at `false`. -/
theorem paused_schema_unverifiable_amended_witness :
    verifyAttestation envPausedToken demoSchemaAddress demoUser = false ∧
    verifyTokenAttestation
      { envPausedToken with fetchSchema := fun a =>
          if a = demoSchemaAddress then .ok { demoSchemaPaused with isPaused := false }
          else envPausedToken.fetchSchema a }
      demoSchemaAddress demoUser
      = verifyTokenAttestation envPausedToken demoSchemaAddress demoUser :=
  ⟨(paused_schema_unverifiable_amended envPausedToken demoSchemaAddress demoUser
      demoSchemaPaused rfl rfl).1,
   (paused_schema_unverifiable_amended envPausedToken demoSchemaAddress demoUser
      demoSchemaPaused rfl rfl).2 false⟩

/-- Claim C6: `verifyTokenAttestation` returns `true` only if the mint's
TokenGroupMember extension references exactly the schema's token-group (schema
mint) address and the TokenMetadata extension cross-references exactly the
derived attestation PDA and the given schema address; and it returns `false`
whenever the group-membership extension references a different group address
than the schema's token-group address. -/
theorem verifyTokenAttestation_cross_references (env : Env) (schemaPda userAddress : Address) :
    (verifyTokenAttestation env schemaPda userAddress = true →
      ∃ schema mintAccount foundExtensions,
        env.fetchSchema schemaPda = .ok schema ∧
        env.fetchMint (deriveAttestationMintPda
            (deriveAttestationPda schema.credential schemaPda userAddress).1).1
          = .ok (some mintAccount) ∧
        mintAccount.extensions = some foundExtensions ∧
        foundExtensions.find? MintExtension.isTokenGroupMember
          = some (.tokenGroupMember (deriveSchemaMintPda schemaPda).1) ∧
        ∃ nm sym uri meta,
          foundExtensions.find? MintExtension.isTokenMetadata
            = some (.tokenMetadata nm sym uri meta) ∧
          meta.lookup "attestation"
            = some (deriveAttestationPda schema.credential schemaPda userAddress).1 ∧
          meta.lookup "schema" = some schemaPda) ∧
    (∀ schema mintAccount foundExtensions group,
        env.fetchSchema schemaPda = .ok schema →
        env.fetchMint (deriveAttestationMintPda
            (deriveAttestationPda schema.credential schemaPda userAddress).1).1
          = .ok (some mintAccount) →
        mintAccount.extensions = some foundExtensions →
        foundExtensions.find? MintExtension.isTokenGroupMember
          = some (.tokenGroupMember group) →
        group ≠ (deriveSchemaMintPda schemaPda).1 →
        verifyTokenAttestation env schemaPda userAddress = false) := by
  constructor
  · intro h
    unfold verifyTokenAttestation at h
    split at h
    · exact Bool.noConfusion h
    next schema hs =>
      dsimp only at h
      split at h
      · exact Bool.noConfusion h
      · exact Bool.noConfusion h
      next mintAccount hm =>
        split at h
        · exact Bool.noConfusion h
        next foundExtensions he =>
          split at h
          · exact Bool.noConfusion h
          next group hg =>
            split at h
            · exact Bool.noConfusion h
            next hgroup =>
              split at h
              · exact Bool.noConfusion h
              next nm sym uri meta hmeta =>
                split at h
                · exact Bool.noConfusion h
                next hatt =>
                  split at h
                  · exact Bool.noConfusion h
                  next hschemaKey =>
                    push_neg at hgroup hatt hschemaKey
                    exact ⟨schema, mintAccount, foundExtensions, hs, hm, he,
                      by rw [hg, hgroup], nm, sym, uri, meta, hmeta, hatt, hschemaKey⟩
              next => exact Bool.noConfusion h
          next => exact Bool.noConfusion h
  · intro schema mintAccount foundExtensions group hs hm he hg hgr
    simp [verifyTokenAttestation, hs, hm, he, hg, hgr]

/-- Witness for C6: the wrong-group environment's token references
"OTHER-GROUP" instead of the schema mint, so token verification is `false`. -/
theorem verifyTokenAttestation_cross_references_witness :
    verifyTokenAttestation envWrongGroupToken demoSchemaAddress demoUser = false :=
  (verifyTokenAttestation_cross_references envWrongGroupToken demoSchemaAddress demoUser).2
    demoSchema demoWrongGroupMint
    [.tokenGroupMember "OTHER-GROUP",
     .tokenMetadata "Test Identity" "TESTID" "https://example.com/metadata.json"
       [("attestation", demoAttestationPda), ("schema", demoSchemaAddress)]]
    "OTHER-GROUP" rfl rfl rfl rfl (by decide)

/-- Claim C7: the result of `verifyTokenAttestation` is independent of the
attestation's expiry and of the current time: any two environments that agree
on the schema fetcher and the mint fetcher (but may differ arbitrarily in
attestation state, payload decoding and clock) produce the same boolean. -/
theorem verifyTokenAttestation_time_independent (env₁ env₂ : Env)
    (schemaPda userAddress : Address)
    (hs : env₁.fetchSchema = env₂.fetchSchema)
    (hm : env₁.fetchMint = env₂.fetchMint) :
    verifyTokenAttestation env₁ schemaPda userAddress
      = verifyTokenAttestation env₂ schemaPda userAddress := by
  unfold verifyTokenAttestation
  rw [hs, hm]

/-- The paused-token environment observed much later, with the on-ledger
attestation replaced by an already-expired one. -/
def envTokenLater : Env :=
  { envPausedToken with
    now := 123456789
    fetchAttestation := fun _ => .ok { demoAttestation with expiry := -1 } }

/-- Witness for C7: moving the clock far forward and expiring the attestation
does not change the token verification result. -/
theorem verifyTokenAttestation_time_independent_witness :
    verifyTokenAttestation envPausedToken demoSchemaAddress demoUser
      = verifyTokenAttestation envTokenLater demoSchemaAddress demoUser :=
  verifyTokenAttestation_time_independent envPausedToken envTokenLater
    demoSchemaAddress demoUser rfl rfl

/-- Claim C10: `verifyTokenAttestation` never raises to its caller and returns
`false` in every degenerate mint state: schema fetch throws, mint fetch
throws, mint account absent (falsy), extensions option `None`, no
TokenGroupMember extension, and no TokenMetadata extension. -/
theorem verifyTokenAttestation_degenerate_false (env : Env) (schemaPda userAddress : Address) :
    (∀ e, env.fetchSchema schemaPda = .error e →
        verifyTokenAttestation env schemaPda userAddress = false) ∧
    (∀ schema e, env.fetchSchema schemaPda = .ok schema →
        env.fetchMint (deriveAttestationMintPda
            (deriveAttestationPda schema.credential schemaPda userAddress).1).1 = .error e →
        verifyTokenAttestation env schemaPda userAddress = false) ∧
    (∀ schema, env.fetchSchema schemaPda = .ok schema →
        env.fetchMint (deriveAttestationMintPda
            (deriveAttestationPda schema.credential schemaPda userAddress).1).1 = .ok none →
        verifyTokenAttestation env schemaPda userAddress = false) ∧
    (∀ schema mintAccount, env.fetchSchema schemaPda = .ok schema →
        env.fetchMint (deriveAttestationMintPda
            (deriveAttestationPda schema.credential schemaPda userAddress).1).1
          = .ok (some mintAccount) →
        mintAccount.extensions = none →
        verifyTokenAttestation env schemaPda userAddress = false) ∧
    (∀ schema mintAccount foundExtensions, env.fetchSchema schemaPda = .ok schema →
        env.fetchMint (deriveAttestationMintPda
            (deriveAttestationPda schema.credential schemaPda userAddress).1).1
          = .ok (some mintAccount) →
        mintAccount.extensions = some foundExtensions →
        foundExtensions.find? MintExtension.isTokenGroupMember = none →
        verifyTokenAttestation env schemaPda userAddress = false) ∧
    (∀ schema mintAccount foundExtensions, env.fetchSchema schemaPda = .ok schema →
        env.fetchMint (deriveAttestationMintPda
            (deriveAttestationPda schema.credential schemaPda userAddress).1).1
          = .ok (some mintAccount) →
        mintAccount.extensions = some foundExtensions →
        foundExtensions.find? MintExtension.isTokenMetadata = none →
        verifyTokenAttestation env schemaPda userAddress = false) := by
  refine ⟨?_, ?_, ?_, ?_, ?_, ?_⟩
  · intro e hs
    simp [verifyTokenAttestation, hs]
  · intro schema e hs hm
    simp [verifyTokenAttestation, hs, hm]
  · intro schema hs hm
    simp [verifyTokenAttestation, hs, hm]
  · intro schema mintAccount hs hm he
    simp [verifyTokenAttestation, hs, hm, he]
  · intro schema mintAccount foundExtensions hs hm he hg
    simp [verifyTokenAttestation, hs, hm, he, hg]
  · intro schema mintAccount foundExtensions hs hm he hmeta
    rcases hg : foundExtensions.find? MintExtension.isTokenGroupMember with _ | ext
    · simp [verifyTokenAttestation, hs, hm, he, hg]
    · cases ext with
      | tokenGroupMember g =>
        by_cases hgr : g ≠ (deriveSchemaMintPda schemaPda).1
        · simp [verifyTokenAttestation, hs, hm, he, hg, hgr]
        · push_neg at hgr
          simp [verifyTokenAttestation, hs, hm, he, hg, hgr, hmeta]
      | tokenMetadata nm sym uri meta =>
        simp [verifyTokenAttestation, hs, hm, he, hg]
      | other k =>
        simp [verifyTokenAttestation, hs, hm, he, hg]

/-- Witness for C10: in the all-throwing environment the schema fetch throws
and token verification resolves to `false`. -/
theorem verifyTokenAttestation_degenerate_false_witness :
    verifyTokenAttestation envAllErr demoSchemaAddress demoUser = false :=
  (verifyTokenAttestation_degenerate_false envAllErr demoSchemaAddress demoUser).1
    FetchError.notFound rfl

/-- Claim C8: credential PDA derivation truncates the name to the 32-byte seed
budget before deriving — `deriveCredentialPda authority name` equals
`deriveCredentialPda authority (name.take 32)` — hence any two names sharing
the same 32-byte prefix derive the same (colliding) address. -/
theorem deriveCredentialPda_truncates_name (authority : Address) (name₁ name₂ : List Nat)
    (h : name₁.take 32 = name₂.take 32) :
    deriveCredentialPda authority name₁ = deriveCredentialPda authority (name₁.take 32) ∧
    deriveCredentialPda authority name₁ = deriveCredentialPda authority name₂ := by
  constructor
  · simp [deriveCredentialPda, List.take_take]
  · simp [deriveCredentialPda, h]

/-- Witness for C8: two distinct 33-byte names agreeing on their first 32
bytes derive the same credential PDA. -/
theorem deriveCredentialPda_truncates_name_witness :
    deriveCredentialPda "AUTH" (List.replicate 32 0 ++ [1])
      = deriveCredentialPda "AUTH" ((List.replicate 32 0 ++ [1]).take 32) ∧
    deriveCredentialPda "AUTH" (List.replicate 32 0 ++ [1])
      = deriveCredentialPda "AUTH" (List.replicate 32 0 ++ [2]) :=
  deriveCredentialPda_truncates_name "AUTH" (List.replicate 32 0 ++ [1])
    (List.replicate 32 0 ++ [2]) (by decide)

/-- Claim C9: credential address derivation is a deterministic pure function —
it is modelled as a total Lean function with no effects, and any two
invocations on identical inputs yield identical (address, bump) results. -/
theorem deriveCredentialPda_deterministic (authority₁ authority₂ : Address)
    (name₁ name₂ : List Nat)
    (ha : authority₁ = authority₂) (hn : name₁ = name₂) :
    deriveCredentialPda authority₁ name₁ = deriveCredentialPda authority₂ name₂ := by
  rw [ha, hn]

/-- Witness for C9: deriving the demo credential twice yields the same pair. -/
theorem deriveCredentialPda_deterministic_witness :
    deriveCredentialPda "AUTH" [84, 69, 83, 84] = deriveCredentialPda "AUTH" [84, 69, 83, 84] :=
  deriveCredentialPda_deterministic "AUTH" "AUTH" [84, 69, 83, 84] [84, 69, 83, 84] rfl rfl
